import Mathlib

set_option maxHeartbeats 1600000

/-!
Verification development for the streaming ask-operation of
`webui/src/components/QueryInterface.jsx` (tiny-genbi).

The component consumes a streamed HTTP response: chunks of bytes are
decoded to text, buffered, split on line boundaries, and each complete
`data:` line is parsed as JSON and folded into the component state by a
chain of duck-typed field checks.  The definitions below embed that code
shallowly: JavaScript/JSON values become the inductive `JVal`, the React
state variables become the `AppState` structure, and the per-payload
branch cascade (lines 103-162 of the source) becomes `applyData`.
-/

namespace GenBI

/-- JavaScript values as manipulated by the streaming handler.  JSON
numbers are kept exactly as decimal values `m / 10 ^ e`.  Objects are
insertion-ordered association lists, matching JavaScript object
semantics.  Constructor `undefined` is the JavaScript `undefined` produced by a missing
member access. -/
inductive JVal where
  | undefined : JVal
  | null : JVal
  | bool : Bool → JVal
  | num : Int → Nat → JVal
  | str : String → JVal
  | arr : List JVal → JVal
  | obj : List (String × JVal) → JVal

/-- Field lookup in a JavaScript object; a missing key reads as
`undefined`. -/
def lookupField : List (String × JVal) → String → JVal
  | [], _ => .undefined
  | (k, v) :: rest, key => if k = key then v else lookupField rest key

/-- Member access `v.key`.  On non-objects it yields `undefined` (for
`null`/`undefined` receivers JavaScript throws instead, but every such
access in the handler sits inside the `try` whose `catch` merely logs,
so the observable effect coincides with the fall-through). -/
def dot : JVal → String → JVal
  | .obj fs, k => lookupField fs k
  | _, _ => .undefined

/-- Set (or append) a key in an object literal / spread result,
preserving JavaScript's first-insertion key order. -/
def oset : List (String × JVal) → String → JVal → List (String × JVal)
  | [], k, v => [(k, v)]
  | (k0, v0) :: rest, k, v =>
    if k0 = k then (k, v) :: rest else (k0, v0) :: oset rest k v

/-- The fields contributed by a spread `{...v}`: non-objects contribute
nothing. -/
def spreadFields : JVal → List (String × JVal)
  | .obj fs => fs
  | _ => []

/-- JavaScript truthiness. -/
def truthy : JVal → Bool
  | .undefined => false
  | .null => false
  | .bool b => b
  | .num m _ => m != 0
  | .str s => s != ""
  | .arr _ => true
  | .obj _ => true

/-- JavaScript `a || b`. -/
def jor (a b : JVal) : JVal := if truthy a then a else b

/-- Decimal rendering of `m / 10 ^ e`, matching how JavaScript prints
the (normalized) numbers occurring in this protocol. -/
def numToString (m : Int) (e : Nat) : String :=
  if e = 0 then toString m
  else
    let n := m.natAbs
    let s := toString n
    let s := (String.mk (List.replicate (e + 1 - s.length) '0')) ++ s
    let intPart := String.mk (s.data.take (s.data.length - e))
    let fracPart := String.mk (s.data.drop (s.data.length - e))
    (if m < 0 then "-" else "") ++ intPart ++ "." ++ fracPart

mutual

/-- JavaScript string coercion as used in template literals; arrays
join their elements with commas, plain objects print as
`[object Object]`. -/
def jToString : JVal → String
  | .undefined => "undefined"
  | .null => "null"
  | .bool true => "true"
  | .bool false => "false"
  | .num m e => numToString m e
  | .str s => s
  | .arr xs => jToStringList xs
  | .obj _ => "[object Object]"

/-- Comma-joined rendering of array elements. -/
def jToStringList : List JVal → String
  | [] => ""
  | [x] => jToString x
  | x :: xs => jToString x ++ "," ++ jToStringList xs

end

/-- The JavaScript `+` operator as it occurs in
`setStreamingReasoning(prev => prev + data.chunk)`: two numbers add,
anything else concatenates the string renderings. -/
def jsAdd : JVal → JVal → JVal
  | .num m1 e1, .num m2 e2 => .num (m1 * (10 : Int) ^ e2 + m2 * (10 : Int) ^ e1) (e1 + e2)
  | a, b => .str (jToString a ++ jToString b)

/-- The check `s.includes('error')` on a string. -/
def strIncludesError (s : String) : Bool := (s.splitOn "error").length != 1

/-- Is the value exactly `undefined`?  Used for the
`data.row_count !== undefined` check. -/
def isUndef : JVal → Bool
  | .undefined => true
  | _ => false

/-- The React state variables of `QueryInterface` that the streaming
logic reads or writes. -/
structure AppState where
  loading : Bool
  result : JVal
  error : JVal
  streamingReasoning : JVal
  currentStep : JVal
  isStreaming : Bool
  savingToKB : Bool
  kbMessage : JVal

/-- Component state right after the resets at the top of `handleAsk`
(lines 46-52): loading, no error, no result, empty reasoning and step,
streaming. -/
def askStartState : AppState :=
  { loading := true
    result := .null
    error := .null
    streamingReasoning := .str ""
    currentStep := .str ""
    isStreaming := true
    savingToKB := false
    kbMessage := .null }

/-- The auto-fix suffix of the row-count progress message (line 134). -/
def autoFixInfo (d : JVal) : String :=
  if truthy (dot d "auto_fixed") then
    " (auto-fixed in " ++ jToString (dot d "fix_attempts") ++ " attempts)"
  else ""

/-- The row-count progress message (line 135). -/
def execStepMsg (d : JVal) : String :=
  "✅ Query executed successfully! " ++ jToString (dot d "row_count")
    ++ " rows returned" ++ autoFixInfo d

/-- The metadata object written by the auto-fix updates:
`{ ...(prev?.metadata || \x7b\x7d), auto_fixed: true, fix_attempts: v }`. -/
def autoFixMeta (prev : JVal) (v : JVal) : JVal :=
  .obj (oset (oset (spreadFields (jor (dot prev "metadata") (.obj [])))
    "auto_fixed" (.bool true)) "fix_attempts" v)

/-- One decoded `data:` payload folded into the component state: the
duck-typed branch cascade of `handleAsk`, lines 103-162 of
`QueryInterface.jsx`, checked in source order.  An unmatched payload
leaves the state unchanged. -/
def applyData (st : AppState) (d : JVal) : AppState :=
  if truthy (dot d "step") then
    { st with currentStep := jor (dot d "message") (dot d "step") }
  else if truthy (dot d "chunk") then
    { st with streamingReasoning := jsAdd st.streamingReasoning (dot d "chunk") }
  else if truthy (dot d "reasoning") then
    { st with streamingReasoning := dot d "reasoning" }
  else if truthy (dot d "sql") then
    { st with result := .obj (oset (spreadFields st.result) "sql" (dot d "sql")) }
  else if truthy (dot d "attempts") then
    { st with result := .obj (oset (oset (spreadFields (jor st.result (.obj [])))
        "sql" (dot d "sql")) "metadata" (autoFixMeta st.result (dot d "attempts"))) }
  else if truthy (dot d "explanation") then
    { st with
        result := .obj (oset (spreadFields st.result) "sql_explanation" (dot d "explanation"))
        currentStep := .str "" }
  else if truthy (dot d "natural_language_answer") then
    { st with
        result := .obj (oset (spreadFields st.result) "natural_language_answer"
          (dot d "natural_language_answer"))
        currentStep := .str "" }
  else if isUndef (dot d "row_count") = false then
    let st1 := { st with currentStep := .str (execStepMsg d) }
    if truthy (dot d "auto_fixed") then
      { st1 with result := .obj (oset (spreadFields (jor st.result (.obj [])))
          "metadata" (autoFixMeta st.result (dot d "fix_attempts"))) }
    else st1
  else if truthy (dot d "error") then
    { st with error := dot d "error", isStreaming := false, loading := false }
  else if truthy (dot d "query_id") then
    { st with result := d, isStreaming := false, loading := false, currentStep := .str "" }
  else
    match dot d "message" with
    | .str s =>
      if s != "" && strIncludesError s then
        { st with error := .str s, isStreaming := false, loading := false }
      else st
    | _ => st

/-- The request body sent by `saveToKnowledgeBase` (lines 193-201). -/
structure SaveReq where
  database_id : String
  question : JVal
  sql : JVal
  description : JVal

/-- Function `saveToKnowledgeBase` (lines 184-215): the guard silently returns
when `result`, `result.sql` or `result.question` is falsy; otherwise it
posts a request and records a success/failure notice.  `netErr = none`
models a successful post, `netErr = some msg` a failed one.  Returns the
issued request (if any) together with the final state. -/
def saveToKnowledgeBase (st : AppState) (databaseId : String) (netErr : Option String) :
    Option SaveReq × AppState :=
  if truthy st.result && truthy (dot st.result "sql") && truthy (dot st.result "question") then
    let req : SaveReq :=
      { database_id := databaseId
        question := dot st.result "question"
        sql := dot st.result "sql"
        description := jor (dot st.result "sql_explanation") .null }
    match netErr with
    | none =>
      (some req, { st with savingToKB := false
                           kbMessage := .obj [("type", .str "success"),
                             ("text", .str "✅ Saved to Knowledge Base!")] })
    | some msg =>
      (some req, { st with savingToKB := false
                           kbMessage := .obj [("type", .str "error"),
                             ("text", .str ("❌ Failed to save: " ++ msg))] })
  else (none, st)

/-- Whether the error alert is rendered (line 282: `error && ...`). -/
def showsError (st : AppState) : Bool := truthy st.error

/-- Whether the streaming step indicator is rendered (line 289:
`isStreaming && currentStep`). -/
def showsStepIndicator (st : AppState) : Bool := st.isStreaming && truthy st.currentStep

/-- Whether the results panel is rendered (line 298:
`result || isStreaming`). -/
def showsResults (st : AppState) : Bool := truthy st.result || st.isStreaming

/-! ## A model of `JSON.parse` for the JSON text carried on `data:` lines. -/

/-- JSON whitespace. -/
def isJsonWs (c : Char) : Bool := c = ' ' || c = '\t' || c = '\n' || c = '\r'

/-- Drop leading JSON whitespace. -/
def skipWsJ (l : List Char) : List Char := l.dropWhile isJsonWs

/-- The characters `\x7b`, `\x7d`, `"` and `\\`. -/
def lbraceChar : Char := Char.ofNat 123

/-- Closing brace. -/
def rbraceChar : Char := Char.ofNat 125

/-- Double quote. -/
def quoteChar : Char := Char.ofNat 34

/-- Backslash. -/
def backslashChar : Char := Char.ofNat 92

/-- Value of one hexadecimal digit. -/
def hexVal (c : Char) : Option Nat :=
  if '0' ≤ c ∧ c ≤ '9' then some (c.toNat - 48)
  else if 'a' ≤ c ∧ c ≤ 'f' then some (c.toNat - 87)
  else if 'A' ≤ c ∧ c ≤ 'F' then some (c.toNat - 55)
  else none

/-- Does `l` start with the pattern `p`? -/
def startsWithChars : List Char → List Char → Bool
  | [], _ => true
  | _ :: _, [] => false
  | p :: ps, c :: cs => p = c && startsWithChars ps cs

/-- Body of a JSON string after the opening quote; `acc` collects the
decoded characters in reverse. -/
def parseStrBody : Nat → List Char → List Char → Option (String × List Char)
  | 0, _, _ => none
  | fuel + 1, acc, l =>
    match l with
    | [] => none
    | c :: cs =>
      if c = quoteChar then some (String.mk acc.reverse, cs)
      else if c = backslashChar then
        match cs with
        | [] => none
        | e :: cs2 =>
          if e = quoteChar then parseStrBody fuel (quoteChar :: acc) cs2
          else if e = backslashChar then parseStrBody fuel (backslashChar :: acc) cs2
          else if e = '/' then parseStrBody fuel ('/' :: acc) cs2
          else if e = 'b' then parseStrBody fuel (Char.ofNat 8 :: acc) cs2
          else if e = 'f' then parseStrBody fuel (Char.ofNat 12 :: acc) cs2
          else if e = 'n' then parseStrBody fuel ('\n' :: acc) cs2
          else if e = 'r' then parseStrBody fuel ('\r' :: acc) cs2
          else if e = 't' then parseStrBody fuel ('\t' :: acc) cs2
          else if e = 'u' then
            match cs2 with
            | h1 :: h2 :: h3 :: h4 :: cs3 =>
              match hexVal h1, hexVal h2, hexVal h3, hexVal h4 with
              | some a, some b, some c4, some d =>
                parseStrBody fuel (Char.ofNat (((a * 16 + b) * 16 + c4) * 16 + d) :: acc) cs3
              | _, _, _, _ => none
            | _ => none
          else none
      else parseStrBody fuel (c :: acc) cs

/-- ASCII decimal digit. -/
def isDigitChar (c : Char) : Bool := '0' ≤ c && c ≤ '9'

/-- Numeric value of a digit list. -/
def digitsToNat (ds : List Char) : Nat := ds.foldl (fun n c => n * 10 + (c.toNat - 48)) 0

/-- Strip trailing zero fraction digits so that `12.40` and `12.4`
denote the same `JVal.num`, matching JavaScript number identity. -/
def normNum : Int → Nat → Int × Nat
  | m, 0 => (m, 0)
  | m, e + 1 => if m % 10 = 0 then normNum (m / 10) e else (m, e + 1)

/-- A JSON number literal. -/
def parseNum (l : List Char) : Option (JVal × List Char) :=
  let p1 : Bool × List Char :=
    match l with
    | c :: cs => if c = '-' then (true, cs) else (false, l)
    | [] => (false, [])
  let neg := p1.1
  let l1 := p1.2
  let ds := l1.takeWhile isDigitChar
  if ds.isEmpty then none else
  let l2 := l1.drop ds.length
  let fracRes : Option (List Char × List Char) :=
    match l2 with
    | c :: cs =>
      if c = '.' then
        let fds := cs.takeWhile isDigitChar
        if fds.isEmpty then none else some (fds, cs.drop fds.length)
      else some ([], l2)
    | [] => some ([], [])
  match fracRes with
  | none => none
  | some (fds, l3) =>
    let expRes : Option (Int × List Char) :=
      match l3 with
      | c :: cs =>
        if c = 'e' ∨ c = 'E' then
          let ps : Int × List Char :=
            match cs with
            | d :: ds2 => if d = '+' then (1, ds2) else if d = '-' then (-1, ds2) else (1, cs)
            | [] => (1, [])
          let eds := ps.2.takeWhile isDigitChar
          if eds.isEmpty then none
          else some (ps.1 * (digitsToNat eds : Int), ps.2.drop eds.length)
        else some (0, l3)
      | [] => some (0, [])
    match expRes with
    | none => none
    | some (ex, l4) =>
      let mant : Int := (digitsToNat (ds ++ fds) : Nat)
      let mant := if neg then -mant else mant
      let me : Int × Nat :=
        if (fds.length : Int) ≤ ex then
          (mant * (10 : Int) ^ ((ex - fds.length).toNat), 0)
        else
          (mant, ((fds.length : Int) - ex).toNat)
      let mn := normNum me.1 me.2
      some (.num mn.1 mn.2, l4)

/-- Literal `true`. -/
def trueLit : List Char := ['t', 'r', 'u', 'e']

/-- Literal `false`. -/
def falseLit : List Char := ['f', 'a', 'l', 's', 'e']

/-- Literal `null`. -/
def nullLit : List Char := ['n', 'u', 'l', 'l']

mutual

/-- One JSON value, fuel-bounded recursive descent. -/
def parseVal : Nat → List Char → Option (JVal × List Char)
  | 0, _ => none
  | fuel + 1, l =>
    let l1 := skipWsJ l
    match l1 with
    | [] => none
    | c :: cs =>
      if c = quoteChar then
        match parseStrBody fuel [] cs with
        | some (s, r) => some (.str s, r)
        | none => none
      else if c = lbraceChar then parseMembers fuel cs true []
      else if c = '[' then parseElems fuel cs true []
      else if startsWithChars trueLit l1 then some (.bool true, l1.drop 4)
      else if startsWithChars falseLit l1 then some (.bool false, l1.drop 5)
      else if startsWithChars nullLit l1 then some (.null, l1.drop 4)
      else parseNum l1

/-- Members of a JSON object after the opening brace; duplicate keys
overwrite, as in `JSON.parse`. -/
def parseMembers : Nat → List Char → Bool → List (String × JVal) →
    Option (JVal × List Char)
  | 0, _, _, _ => none
  | fuel + 1, l, first, acc =>
    let l1 := skipWsJ l
    match l1 with
    | [] => none
    | c :: cs =>
      if first && c = rbraceChar then some (.obj acc, cs)
      else if c = quoteChar then
        match parseStrBody fuel [] cs with
        | none => none
        | some (k, r1) =>
          match skipWsJ r1 with
          | [] => none
          | c2 :: r2 =>
            if c2 = ':' then
              match parseVal fuel r2 with
              | none => none
              | some (v, r3) =>
                match skipWsJ r3 with
                | [] => none
                | c3 :: r4 =>
                  if c3 = ',' then parseMembers fuel r4 false (oset acc k v)
                  else if c3 = rbraceChar then some (.obj (oset acc k v), r4)
                  else none
            else none
      else none

/-- Elements of a JSON array after the opening bracket. -/
def parseElems : Nat → List Char → Bool → List JVal → Option (JVal × List Char)
  | 0, _, _, _ => none
  | fuel + 1, l, first, acc =>
    let l1 := skipWsJ l
    match l1 with
    | [] => none
    | c :: _ =>
      if first && c = ']' then some (.arr acc, l1.tail)
      else
        match parseVal fuel l1 with
        | none => none
        | some (v, r1) =>
          match skipWsJ r1 with
          | [] => none
          | c2 :: r2 =>
            if c2 = ',' then parseElems fuel r2 false (acc ++ [v])
            else if c2 = ']' then some (.arr (acc ++ [v]), r2)
            else none

end

/-- Model of `JSON.parse` on a trimmed `data:` payload: a single JSON value with
nothing but whitespace after it; anything else throws in the source,
which the caller turns into a dropped frame. -/
def parseJson (l : List Char) : Option JVal :=
  match parseVal (6 * l.length + 8) l with
  | some (v, rest) => if (skipWsJ rest).isEmpty then some v else none
  | none => none

/-! ## Frame decoding: chunked bytes → text → complete lines → payloads. -/

/-- Whitespace for JavaScript `trim()` (the forms that can occur on
these streams). -/
def isWsChar (c : Char) : Bool :=
  c = ' ' || c = '\t' || c = '\n' || c = '\r' || c = Char.ofNat 11 || c = Char.ofNat 12

/-- JavaScript `s.trim()`. -/
def trimChars (l : List Char) : List Char :=
  ((l.dropWhile isWsChar).reverse.dropWhile isWsChar).reverse

/-- The check `!line.trim()` (line 87): the line holds only whitespace. -/
def isBlankLine (l : List Char) : Bool := (trimChars l).isEmpty

/-- The newline character the source splits on. -/
def nlChar : Char := '\n'

/-- The split `buffer.split('\n')` followed by `buffer = lines.pop()` (lines
83-84): the complete lines in order, and the trailing residue that has
not yet seen its terminator. -/
def splitLines : List Char → List (List Char) × List Char
  | [] => ([], [])
  | c :: cs =>
    if c = nlChar then ([] :: (splitLines cs).1, (splitLines cs).2)
    else
      match (splitLines cs).1 with
      | [] => ([], c :: (splitLines cs).2)
      | l :: ls => ((c :: l) :: ls, (splitLines cs).2)

/-- State of the incremental text decoder: how many continuation bytes
are still expected and the code point accumulated so far.  This models
`new TextDecoder()` used with `decode(value, \x7b stream: true \x7d)`
(lines 73, 82), whose defining property is that it carries a split
multi-byte sequence across chunk boundaries. -/
structure Utf8State where
  need : Nat
  acc : Nat

/-- The replacement character emitted for invalid input. -/
def replChar : Char := Char.ofNat 0xFFFD

/-- Decode one byte from the fresh state. -/
def utf8Start (b : Nat) : Utf8State × List Char :=
  if b < 0x80 then (⟨0, 0⟩, [Char.ofNat b])
  else if b < 0xC0 then (⟨0, 0⟩, [replChar])
  else if b < 0xE0 then (⟨1, b - 0xC0⟩, [])
  else if b < 0xF0 then (⟨2, b - 0xE0⟩, [])
  else if b < 0xF8 then (⟨3, b - 0xF0⟩, [])
  else (⟨0, 0⟩, [replChar])

/-- Decode one byte: a per-byte step function, so decoding is a fold
over the byte stream — chunk boundaries cannot influence the decoded
text. -/
def utf8Step (u : Utf8State) (b : Nat) : Utf8State × List Char :=
  match u.need with
  | 0 => utf8Start b
  | n + 1 =>
    if 0x80 ≤ b ∧ b < 0xC0 then
      let acc := u.acc * 64 + (b - 0x80)
      match n with
      | 0 => (⟨0, 0⟩, [Char.ofNat acc])
      | m + 1 => (⟨m + 1, acc⟩, [])
    else
      let p := utf8Start b
      (p.1, replChar :: p.2)

/-- Decode a whole chunk of bytes, threading the decoder state. -/
def decodeChunk (u : Utf8State) (bs : List Nat) : List Char × Utf8State :=
  bs.foldl (fun p b => (p.1 ++ (utf8Step p.2 b).2, (utf8Step p.2 b).1)) ([], u)

/-- The prefix `event:`. -/
def evColon : List Char := ['e', 'v', 'e', 'n', 't', ':']

/-- The prefix `data:`. -/
def dataColon : List Char := ['d', 'a', 't', 'a', ':']

/-- State of the read loop (lines 72-99): the text-decoder carry, the
line buffer residue, the current `event:` name, the component state,
and — as verification instrumentation — every complete line processed
so far, in order. -/
structure LoopState where
  utf8 : Utf8State
  buffer : List Char
  currentEvent : Option String
  app : AppState
  processedLines : List (List Char)

/-- Handle one complete line (lines 86-96): blank lines close the
current event block, `event:` lines record the event name, `data:`
lines are JSON-parsed and folded into the component state, and a parse
failure drops the frame. -/
def lineStep (st : LoopState) (line : List Char) : LoopState :=
  let st1 := { st with processedLines := st.processedLines ++ [line] }
  if isBlankLine line then { st1 with currentEvent := none }
  else if startsWithChars evColon line then
    { st1 with currentEvent := some (String.mk (trimChars (line.drop 6))) }
  else if startsWithChars dataColon line then
    match parseJson (trimChars (line.drop 5)) with
    | some v => { st1 with app := applyData st1.app v }
    | none => st1
  else st1

/-- The effect of one complete line on the component state alone: the
event name is recorded but never read by the handler, so the
state-relevant part of `lineStep` factors through this function. -/
def appLineStep (a : AppState) (line : List Char) : AppState :=
  if isBlankLine line then a
  else if startsWithChars evColon line then a
  else if startsWithChars dataColon line then
    match parseJson (trimChars (line.drop 5)) with
    | some v => applyData a v
    | none => a
  else a

/-- The effect of one complete line on the `currentEvent` name alone. -/
def evStep (e : Option String) (line : List Char) : Option String :=
  if isBlankLine line then none
  else if startsWithChars evColon line then some (String.mk (trimChars (line.drop 6)))
  else e

/-- One iteration of the read loop for one received chunk (lines
78-99): decode the bytes, append to the buffer, split off the complete
lines, keep the trailing residue, and process each complete line. -/
def chunkStep (st : LoopState) (chunk : List Nat) : LoopState :=
  let dc := decodeChunk st.utf8 chunk
  let sp := splitLines (st.buffer ++ dc.1)
  sp.1.foldl lineStep { st with utf8 := dc.2, buffer := sp.2 }

/-- Loop state at the start of the stream, over a given component
state. -/
def loopStart (a : AppState) : LoopState :=
  { utf8 := ⟨0, 0⟩, buffer := [], currentEvent := none, app := a, processedLines := [] }

/-- Run the read loop to a clean close over a sequence of received
chunks. -/
def runChunks (a : AppState) (chunks : List (List Nat)) : LoopState :=
  chunks.foldl chunkStep (loopStart a)

/-- The six state resets at the top of `handleAsk` (lines 46-52). -/
def askReset (prev : AppState) : AppState :=
  { prev with
    loading := true
    error := .null
    result := .null
    streamingReasoning := .str ""
    currentStep := .str ""
    isStreaming := true }

/-- State of the component at first render (lines 13-22). -/
def initialState : AppState :=
  { loading := false
    result := .null
    error := .null
    streamingReasoning := .str ""
    currentStep := .str ""
    isStreaming := false
    savingToKB := false
    kbMessage := .null }

/-- The whole `handleAsk` call (lines 40-176) on a stream that reaches
a clean transport close: the empty-input validation, the state resets,
the `response.ok` check, the read loop, and the `finally` clause. -/
def handleAsk (prev : AppState) (question databaseId : String) (status : Nat)
    (chunks : List (List Nat)) : AppState :=
  if (trimChars question.data).isEmpty || (trimChars databaseId.data).isEmpty then
    { prev with error := .str "Please enter both a question and select a database" }
  else
    let st0 := askReset prev
    if 200 ≤ status ∧ status ≤ 299 then
      let fin := runChunks st0 chunks
      { fin.app with loading := false }
    else
      { st0 with
        error := .str ("HTTP error! status: " ++ toString status)
        isStreaming := false
        loading := false }

/-- The complete lines determined by a byte stream (residue excluded):
what the read loop processes when the whole stream arrives. -/
def linesOfBytes (bs : List Nat) : List (List Char) :=
  (splitLines (decodeChunk ⟨0, 0⟩ bs).1).1

/-- The payload a complete line contributes, if any: `data:` lines with
payloads that parse, nothing otherwise. -/
def lineUpdate (l : List Char) : Option JVal :=
  if isBlankLine l then none
  else if startsWithChars evColon l then none
  else if startsWithChars dataColon l then parseJson (trimChars (l.drop 5))
  else none

/-- The sequence of successfully decoded `data:` payloads of a line
sequence: exactly the updates the handler applies, in order. -/
def updatesOf (ls : List (List Char)) : List JVal :=
  ls.filterMap lineUpdate

/-- Remove the `event:` lines of a stream; two streams that differ only
in their event lines have equal images under this map. -/
def stripEvents (ls : List (List Char)) : List (List Char) :=
  ls.filter (fun l => !(startsWithChars evColon l))

/-- Does this payload reach one of the branches that end the operation
(`error`, `query_id`, or an error-indicating `message`)?  The branch
taken depends only on the payload, never on the current state. -/
def isTerminalPayload (d : JVal) : Bool :=
  !(truthy (dot d "step")) && !(truthy (dot d "chunk")) && !(truthy (dot d "reasoning"))
    && !(truthy (dot d "sql")) && !(truthy (dot d "attempts"))
    && !(truthy (dot d "explanation")) && !(truthy (dot d "natural_language_answer"))
    && isUndef (dot d "row_count")
    && (truthy (dot d "error") || truthy (dot d "query_id")
        || (match dot d "message" with
            | .str s => s != "" && strIncludesError s
            | _ => false))

/-- The UTF-8 bytes of an ASCII string, for concrete stream inputs. -/
def asciiBytes (s : String) : List Nat := s.data.map Char.toNat

/-! ## Concrete inputs used by the claim counterexamples and witnesses. -/

/-- Stream of the C1 scenario: a plain sql frame, then a corrected-sql
frame carrying both an attempts field and an sql field. -/
def c1Stream : List (List Nat) :=
  [asciiBytes
    "data:\x7b\"sql\":\"SELECT 1\"\x7d\n\ndata:\x7b\"attempts\":2,\"sql\":\"SELECT 1 FIX\"\x7d\n\n"]

/-- Payload of the C1 witness: attempts and sql together. -/
def c1Payload : JVal := .obj [("attempts", .num 2 0), ("sql", .str "SELECT 1 FIX")]

/-- Stream of the C2 counterexample: a partial sql frame, then a final
snapshot that omits sql, then a final snapshot that carries sql. -/
def c2Stream : List (List Nat) :=
  [asciiBytes "data:\x7b\"sql\":\"SELECT 1\"\x7d\n\ndata:\x7b\"query_id\":\"q-1\"\x7d\n\n"]

/-- Stream whose final snapshot carries both query_id and sql. -/
def c2StreamB : List (List Nat) :=
  [asciiBytes "data:\x7b\"query_id\":\"q-2\",\"sql\":\"S\"\x7d\n\n"]

/-- Snapshot payload of the C2 witness. -/
def c2Payload : JVal := .obj [("query_id", .str "q-1"), ("question", .str "Q")]

/-- State with an accumulated partial result, for the C2 witness. -/
def c2Prior : AppState :=
  { askStartState with result := .obj [("sql", .str "SELECT 1")] }

/-- Stream of the C3 counterexample: an error frame followed by more
frames before transport close. -/
def c3Stream : List (List Nat) :=
  [asciiBytes "data:\x7b\"error\":\"syntax error\"\x7d\n\ndata:\x7b\"sql\":\"X\"\x7d\n\n"]

/-- Failed state for the C3 witness. -/
def c3Failed : AppState :=
  { askStartState with error := .str "syntax error", isStreaming := false, loading := false }

/-- Late sql payload for the C3 witness. -/
def c3Payload : JVal := .obj [("sql", .str "SELECT 2")]

/-- Stream of the C4 counterexample: only a partial sql frame, then a
clean close with no terminal update. -/
def c4Stream : List (List Nat) := [asciiBytes "data:\x7b\"sql\":\"SELECT 1\"\x7d\n\n"]

/-- The C5 witness byte stream: an event line, a data frame whose chunk
text holds a two-byte character, and a second data frame. -/
def c5Whole : List Nat :=
  asciiBytes "event:progress\ndata:\x7b\"chunk\":\"" ++ [0xC3, 0xA9]
    ++ asciiBytes "\"\x7d\n\ndata:\x7b\"sql\":\"S\"\x7d\n\n"

/-- The C5 stream delivered as one chunk. -/
def c5SplitA : List (List Nat) := [c5Whole]

/-- The same bytes split mid-line and inside the two-byte character. -/
def c5SplitB : List (List Nat) :=
  [asciiBytes "event:progress\ndata:\x7b\"ch",
   asciiBytes "unk\":\"" ++ [0xC3],
   [0xA9] ++ asciiBytes "\"\x7d\n\ndata:\x7b\"s",
   asciiBytes "ql\":\"S\"\x7d\n\n"]

/-- Payload of the C6 counterexample: the execution-summary frame of
the specification's own scenario. -/
def c6Payload : JVal := .obj [("row_count", .num 10 0), ("execution_time_ms", .num 124 1)]

/-- Payload of the C6 witness: an auto-fixed execution summary. -/
def c6FixPayload : JVal :=
  .obj [("row_count", .num 3 0), ("auto_fixed", .bool true), ("fix_attempts", .num 2 0)]

/-- Stream of the C8 counterexample: an error frame, then a bare final
snapshot carrying question, then a sql frame — leaving a failed state
whose record nonetheless has sql and question set. -/
def c8Stream : List (List Nat) :=
  [asciiBytes
    "data:\x7b\"error\":\"boom\"\x7d\n\ndata:\x7b\"query_id\":\"q-9\",\"question\":\"Q\"\x7d\n\ndata:\x7b\"sql\":\"S\"\x7d\n\n"]

/-- Record state for the C8 witness: sql and question present. -/
def c8Ready : AppState :=
  { initialState with result := .obj [("question", .str "Q"), ("sql", .str "S")] }

/-- Stream of the C9 counterexample: a partial sql frame, then an error
frame. -/
def c9Stream : List (List Nat) :=
  [asciiBytes "data:\x7b\"sql\":\"SELECT 1\"\x7d\n\ndata:\x7b\"error\":\"boom\"\x7d\n\n"]

/-- State with a populated record for the C9 witness. -/
def c9Partial : AppState :=
  { askStartState with result := .obj [("sql", .str "SELECT 9")] }

/-- Error payload for the C9 witness. -/
def c9Payload : JVal := .obj [("error", .str "division by zero")]

/-- Line stream with an event line, for the C10 witness. -/
def c10LinesA : List (List Char) :=
  ["event:progress".data, "data:\x7b\"sql\":\"S\"\x7d".data, "".data,
   "event:done".data, "data:\x7b\"chunk\":\"R\"\x7d".data]

/-- The same stream with the first event renamed and the second
removed. -/
def c10LinesB : List (List Char) :=
  ["event:other_name".data, "data:\x7b\"sql\":\"S\"\x7d".data, "".data,
   "data:\x7b\"chunk\":\"R\"\x7d".data]

/-! ## Object-field lemmas. -/

theorem lookupField_oset_self (o : List (String × JVal)) (k : String) (v : JVal) :
    lookupField (oset o k v) k = v := by
  induction o with
  | nil => simp [oset, lookupField]
  | cons p rest ih =>
    obtain ⟨k0, v0⟩ := p
    by_cases h : k0 = k
    · simp [oset, h, lookupField]
    · simp [oset, h, lookupField, ih]

theorem lookupField_oset_other (o : List (String × JVal)) (k k2 : String) (v : JVal)
    (h : k2 ≠ k) : lookupField (oset o k v) k2 = lookupField o k2 := by
  induction o with
  | nil => simp [oset, lookupField, Ne.symm h]
  | cons p rest ih =>
    obtain ⟨k0, v0⟩ := p
    by_cases h0 : k0 = k
    · simp [oset, h0, lookupField, Ne.symm h]
    · simp [oset, h0, lookupField, ih]

theorem lookupField_spread (x : JVal) (k : String) :
    lookupField (spreadFields x) k = dot x k := by
  cases x <;> simp [spreadFields, dot, lookupField]

theorem spreadFields_jor_obj (x : JVal) :
    spreadFields (jor x (.obj [])) = spreadFields x := by
  unfold jor
  split
  · rfl
  · rename_i h
    cases x <;> simp_all [truthy, spreadFields]

theorem lookupField_spread_jor (x : JVal) (k : String) :
    lookupField (spreadFields (jor x (.obj []))) k = dot x k := by
  rw [spreadFields_jor_obj, lookupField_spread]

/-! ## Line-splitting lemmas: the buffering discipline of lines 82-84. -/

theorem splitLines_residue (l : List Char) : nlChar ∉ (splitLines l).2 := by
  induction l with
  | nil => simp [splitLines]
  | cons c cs ih =>
    by_cases hc : c = nlChar
    · simpa [splitLines, hc] using ih
    · cases hp : (splitLines cs).1 with
      | nil =>
        simp only [splitLines, if_neg hc, hp]
        intro hmem
        rcases List.mem_cons.mp hmem with h | h
        · exact hc h.symm
        · exact ih h
      | cons l0 ls => simpa [splitLines, hc, hp] using ih

theorem splitLines_of_not_mem (l : List Char) (h : nlChar ∉ l) : splitLines l = ([], l) := by
  induction l with
  | nil => rfl
  | cons c cs ih =>
    have hc : ¬ c = nlChar := fun e => h (by simp [e])
    have hcs : nlChar ∉ cs := fun m => h (List.mem_cons_of_mem _ m)
    simp [splitLines, hc, ih hcs]

theorem splitLines_append (x y : List Char) :
    splitLines (x ++ y) =
      ((splitLines x).1 ++ (splitLines ((splitLines x).2 ++ y)).1,
       (splitLines ((splitLines x).2 ++ y)).2) := by
  induction x with
  | nil => simp [splitLines]
  | cons c cs ih =>
    by_cases hc : c = nlChar
    · simp [splitLines, hc, ih]
    · cases h1 : (splitLines cs).1 with
      | nil =>
        have hres := ih
        rw [h1] at hres
        simp only [List.nil_append] at hres
        cases h2 : (splitLines ((splitLines cs).2 ++ y)).1 with
        | nil => simp [List.cons_append, splitLines, if_neg hc, h1, hres, h2]
        | cons l0 ls0 => simp [List.cons_append, splitLines, if_neg hc, h1, hres, h2]
      | cons l0 ls0 =>
        have hres := ih
        rw [h1] at hres
        simp [List.cons_append, splitLines, if_neg hc, h1, hres]

/-! ## Decoder and read-loop composition lemmas. -/

theorem decodeChunk_acc (bs : List Nat) : ∀ (acc : List Char) (u : Utf8State),
    bs.foldl (fun p b => (p.1 ++ (utf8Step p.2 b).2, (utf8Step p.2 b).1)) (acc, u)
      = (acc ++ (decodeChunk u bs).1, (decodeChunk u bs).2) := by
  induction bs with
  | nil => intro acc u; simp [decodeChunk]
  | cons b bs ih =>
    intro acc u
    simp only [decodeChunk, List.foldl_cons, List.nil_append]
    rw [ih, ih]
    simp [List.append_assoc]

theorem decodeChunk_append (u : Utf8State) (a b : List Nat) :
    decodeChunk u (a ++ b)
      = ((decodeChunk u a).1 ++ (decodeChunk (decodeChunk u a).2 b).1,
         (decodeChunk (decodeChunk u a).2 b).2) := by
  show (a ++ b).foldl _ ([], u) = _
  rw [List.foldl_append]
  have h1 : a.foldl (fun p b => (p.1 ++ (utf8Step p.2 b).2, (utf8Step p.2 b).1))
      (([] : List Char), u) = ((decodeChunk u a).1, (decodeChunk u a).2) := by
    rw [decodeChunk_acc]; simp
  rw [h1, decodeChunk_acc]

theorem lineStep_app (st : LoopState) (l : List Char) :
    (lineStep st l).app = appLineStep st.app l := by
  simp only [lineStep, appLineStep]
  split_ifs <;>
    first
      | rfl
      | (cases parseJson (trimChars (l.drop 5)) <;> rfl)

theorem lineStep_utf8 (st : LoopState) (l : List Char) :
    (lineStep st l).utf8 = st.utf8 := by
  simp only [lineStep]
  split_ifs <;>
    first
      | rfl
      | (cases parseJson (trimChars (l.drop 5)) <;> rfl)

theorem lineStep_buffer (st : LoopState) (l : List Char) :
    (lineStep st l).buffer = st.buffer := by
  simp only [lineStep]
  split_ifs <;>
    first
      | rfl
      | (cases parseJson (trimChars (l.drop 5)) <;> rfl)

theorem lineStep_currentEvent (st : LoopState) (l : List Char) :
    (lineStep st l).currentEvent = evStep st.currentEvent l := by
  simp only [lineStep, evStep]
  split_ifs <;>
    first
      | rfl
      | (cases parseJson (trimChars (l.drop 5)) <;> rfl)

theorem lineStep_processed (st : LoopState) (l : List Char) :
    (lineStep st l).processedLines = st.processedLines ++ [l] := by
  simp only [lineStep]
  split_ifs <;>
    first
      | rfl
      | (cases parseJson (trimChars (l.drop 5)) <;> rfl)

/-- The read loop over complete lines, componentwise: the decoder carry
and buffer are untouched, the event name and component state evolve by
their own step functions, and every line is processed exactly once, in
order. -/
theorem foldl_lineStep_eq (ls : List (List Char)) : ∀ (st : LoopState),
    List.foldl lineStep st ls
      = { utf8 := st.utf8
          buffer := st.buffer
          currentEvent := List.foldl evStep st.currentEvent ls
          app := List.foldl appLineStep st.app ls
          processedLines := st.processedLines ++ ls } := by
  induction ls with
  | nil => intro st; simp
  | cons l ls ih =>
    intro st
    simp only [List.foldl_cons]
    rw [ih]
    simp [lineStep_utf8, lineStep_buffer, lineStep_currentEvent, lineStep_app,
      lineStep_processed, List.append_assoc]

/-- One chunk iteration, componentwise. -/
theorem chunkStep_eq (st : LoopState) (c : List Nat) :
    chunkStep st c
      = { utf8 := (decodeChunk st.utf8 c).2
          buffer := (splitLines (st.buffer ++ (decodeChunk st.utf8 c).1)).2
          currentEvent := List.foldl evStep st.currentEvent
            (splitLines (st.buffer ++ (decodeChunk st.utf8 c).1)).1
          app := List.foldl appLineStep st.app
            (splitLines (st.buffer ++ (decodeChunk st.utf8 c).1)).1
          processedLines := st.processedLines
            ++ (splitLines (st.buffer ++ (decodeChunk st.utf8 c).1)).1 } := by
  simp only [chunkStep]
  rw [foldl_lineStep_eq]

/-- Two consecutive chunk iterations have the same effect as one
iteration on the concatenated bytes: chunk boundaries are invisible to
the loop. -/
theorem chunkStep_append (st : LoopState) (a b : List Nat) :
    chunkStep (chunkStep st a) b = chunkStep st (a ++ b) := by
  rw [chunkStep_eq st a, chunkStep_eq _ b, chunkStep_eq st (a ++ b)]
  dsimp only
  rw [decodeChunk_append st.utf8 a b]
  dsimp only
  rw [← List.append_assoc st.buffer,
    splitLines_append (st.buffer ++ (decodeChunk st.utf8 a).1)
      (decodeChunk (decodeChunk st.utf8 a).2 b).1]
  dsimp only
  rw [List.foldl_append, List.foldl_append, List.append_assoc]

theorem chunkStep_nil (st : LoopState) (h : nlChar ∉ st.buffer) : chunkStep st [] = st := by
  rw [chunkStep_eq]
  simp [decodeChunk, splitLines_of_not_mem st.buffer h]

theorem chunkStep_buffer_noNl (st : LoopState) (c : List Nat) :
    nlChar ∉ (chunkStep st c).buffer := by
  rw [chunkStep_eq]
  exact splitLines_residue _

/-- Processing a chunk sequence is processing the concatenated bytes:
the loop state after any splitting equals the state after one giant
chunk. -/
theorem foldl_chunkStep_join (chunks : List (List Nat)) : ∀ (st : LoopState),
    nlChar ∉ st.buffer →
    List.foldl chunkStep st chunks = chunkStep st chunks.flatten := by
  induction chunks with
  | nil =>
    intro st h
    simpa using (chunkStep_nil st h).symm
  | cons c cs ih =>
    intro st h
    simp only [List.foldl_cons, List.flatten_cons]
    rw [ih (chunkStep st c) (chunkStep_buffer_noNl st c), chunkStep_append]

/-- The component state after the read loop is a fold of the per-line
state step over the complete lines of the whole byte stream. -/
theorem runChunks_app (a : AppState) (chunks : List (List Nat)) :
    (runChunks a chunks).app = List.foldl appLineStep a (linesOfBytes chunks.flatten) := by
  unfold runChunks
  rw [foldl_chunkStep_join _ _ (by simp [loopStart]), chunkStep_eq]
  simp [loopStart, linesOfBytes]

theorem appLineStep_eq_lineUpdate (a : AppState) (l : List Char) :
    appLineStep a l = (match lineUpdate l with
      | some v => applyData a v
      | none => a) := by
  simp only [appLineStep, lineUpdate]
  split_ifs <;> rfl

/-! ## Branch characterization of `applyData`, one lemma per source
branch of the cascade. -/

theorem applyData_step (st : AppState) (d : JVal)
    (h1 : truthy (dot d "step") = true) :
    applyData st d = { st with currentStep := jor (dot d "message") (dot d "step") } := by
  unfold applyData; simp [h1]

theorem applyData_chunk (st : AppState) (d : JVal)
    (h1 : truthy (dot d "step") = false) (h2 : truthy (dot d "chunk") = true) :
    applyData st d
      = { st with streamingReasoning := jsAdd st.streamingReasoning (dot d "chunk") } := by
  unfold applyData; simp [h1, h2]

theorem applyData_reasoning (st : AppState) (d : JVal)
    (h1 : truthy (dot d "step") = false) (h2 : truthy (dot d "chunk") = false)
    (h3 : truthy (dot d "reasoning") = true) :
    applyData st d = { st with streamingReasoning := dot d "reasoning" } := by
  unfold applyData; simp [h1, h2, h3]

theorem applyData_sql (st : AppState) (d : JVal)
    (h1 : truthy (dot d "step") = false) (h2 : truthy (dot d "chunk") = false)
    (h3 : truthy (dot d "reasoning") = false) (h4 : truthy (dot d "sql") = true) :
    applyData st d
      = { st with result := .obj (oset (spreadFields st.result) "sql" (dot d "sql")) } := by
  unfold applyData; simp [h1, h2, h3, h4]

theorem applyData_attempts (st : AppState) (d : JVal)
    (h1 : truthy (dot d "step") = false) (h2 : truthy (dot d "chunk") = false)
    (h3 : truthy (dot d "reasoning") = false) (h4 : truthy (dot d "sql") = false)
    (h5 : truthy (dot d "attempts") = true) :
    applyData st d
      = { st with result := .obj (oset (oset (spreadFields (jor st.result (.obj [])))
          "sql" (dot d "sql")) "metadata" (autoFixMeta st.result (dot d "attempts"))) } := by
  unfold applyData; simp [h1, h2, h3, h4, h5]

theorem applyData_explanation (st : AppState) (d : JVal)
    (h1 : truthy (dot d "step") = false) (h2 : truthy (dot d "chunk") = false)
    (h3 : truthy (dot d "reasoning") = false) (h4 : truthy (dot d "sql") = false)
    (h5 : truthy (dot d "attempts") = false) (h6 : truthy (dot d "explanation") = true) :
    applyData st d
      = { st with
          result := .obj (oset (spreadFields st.result) "sql_explanation" (dot d "explanation"))
          currentStep := .str "" } := by
  unfold applyData; simp [h1, h2, h3, h4, h5, h6]

theorem applyData_answer (st : AppState) (d : JVal)
    (h1 : truthy (dot d "step") = false) (h2 : truthy (dot d "chunk") = false)
    (h3 : truthy (dot d "reasoning") = false) (h4 : truthy (dot d "sql") = false)
    (h5 : truthy (dot d "attempts") = false) (h6 : truthy (dot d "explanation") = false)
    (h7 : truthy (dot d "natural_language_answer") = true) :
    applyData st d
      = { st with
          result := .obj (oset (spreadFields st.result) "natural_language_answer"
            (dot d "natural_language_answer"))
          currentStep := .str "" } := by
  unfold applyData; simp [h1, h2, h3, h4, h5, h6, h7]

theorem applyData_rowCount_fix (st : AppState) (d : JVal)
    (h1 : truthy (dot d "step") = false) (h2 : truthy (dot d "chunk") = false)
    (h3 : truthy (dot d "reasoning") = false) (h4 : truthy (dot d "sql") = false)
    (h5 : truthy (dot d "attempts") = false) (h6 : truthy (dot d "explanation") = false)
    (h7 : truthy (dot d "natural_language_answer") = false)
    (h8 : isUndef (dot d "row_count") = false)
    (h9 : truthy (dot d "auto_fixed") = true) :
    applyData st d
      = { st with
          currentStep := .str (execStepMsg d)
          result := .obj (oset (spreadFields (jor st.result (.obj [])))
            "metadata" (autoFixMeta st.result (dot d "fix_attempts"))) } := by
  unfold applyData; simp [h1, h2, h3, h4, h5, h6, h7, h8, h9]

theorem applyData_rowCount_plain (st : AppState) (d : JVal)
    (h1 : truthy (dot d "step") = false) (h2 : truthy (dot d "chunk") = false)
    (h3 : truthy (dot d "reasoning") = false) (h4 : truthy (dot d "sql") = false)
    (h5 : truthy (dot d "attempts") = false) (h6 : truthy (dot d "explanation") = false)
    (h7 : truthy (dot d "natural_language_answer") = false)
    (h8 : isUndef (dot d "row_count") = false)
    (h9 : truthy (dot d "auto_fixed") = false) :
    applyData st d = { st with currentStep := .str (execStepMsg d) } := by
  unfold applyData; simp [h1, h2, h3, h4, h5, h6, h7, h8, h9]

theorem applyData_error (st : AppState) (d : JVal)
    (h1 : truthy (dot d "step") = false) (h2 : truthy (dot d "chunk") = false)
    (h3 : truthy (dot d "reasoning") = false) (h4 : truthy (dot d "sql") = false)
    (h5 : truthy (dot d "attempts") = false) (h6 : truthy (dot d "explanation") = false)
    (h7 : truthy (dot d "natural_language_answer") = false)
    (h8 : isUndef (dot d "row_count") = true) (h9 : truthy (dot d "error") = true) :
    applyData st d
      = { st with error := dot d "error", isStreaming := false, loading := false } := by
  unfold applyData; simp [h1, h2, h3, h4, h5, h6, h7, h8, h9]

theorem applyData_queryId (st : AppState) (d : JVal)
    (h1 : truthy (dot d "step") = false) (h2 : truthy (dot d "chunk") = false)
    (h3 : truthy (dot d "reasoning") = false) (h4 : truthy (dot d "sql") = false)
    (h5 : truthy (dot d "attempts") = false) (h6 : truthy (dot d "explanation") = false)
    (h7 : truthy (dot d "natural_language_answer") = false)
    (h8 : isUndef (dot d "row_count") = true) (h9 : truthy (dot d "error") = false)
    (h10 : truthy (dot d "query_id") = true) :
    applyData st d
      = { st with
          result := d
          isStreaming := false
          loading := false
          currentStep := .str "" } := by
  unfold applyData; simp [h1, h2, h3, h4, h5, h6, h7, h8, h9, h10]

theorem applyData_msgDrop (st : AppState) (d : JVal)
    (h1 : truthy (dot d "step") = false) (h2 : truthy (dot d "chunk") = false)
    (h3 : truthy (dot d "reasoning") = false) (h4 : truthy (dot d "sql") = false)
    (h5 : truthy (dot d "attempts") = false) (h6 : truthy (dot d "explanation") = false)
    (h7 : truthy (dot d "natural_language_answer") = false)
    (h8 : isUndef (dot d "row_count") = true) (h9 : truthy (dot d "error") = false)
    (h10 : truthy (dot d "query_id") = false)
    (h11 : (match dot d "message" with
      | JVal.str s => s != "" && strIncludesError s
      | _ => false) = false) :
    applyData st d = st := by
  unfold applyData
  simp only [h1, h2, h3, h4, h5, h6, h7, h8, h9, h10]
  simp only [Bool.false_eq_true, if_false]
  cases hm : dot d "message" with
  | str s =>
    rw [hm] at h11
    have h12 : (s != "" && strIncludesError s) = false := h11
    simp [h12]
  | _ => simp_all

theorem applyData_msgError (st : AppState) (d : JVal) (s : String)
    (h1 : truthy (dot d "step") = false) (h2 : truthy (dot d "chunk") = false)
    (h3 : truthy (dot d "reasoning") = false) (h4 : truthy (dot d "sql") = false)
    (h5 : truthy (dot d "attempts") = false) (h6 : truthy (dot d "explanation") = false)
    (h7 : truthy (dot d "natural_language_answer") = false)
    (h8 : isUndef (dot d "row_count") = true) (h9 : truthy (dot d "error") = false)
    (h10 : truthy (dot d "query_id") = false)
    (hm : dot d "message" = .str s) (hc : (s != "" && strIncludesError s) = true) :
    applyData st d
      = { st with error := .str s, isStreaming := false, loading := false } := by
  unfold applyData
  simp [h1, h2, h3, h4, h5, h6, h7, h8, h9, h10, hm, hc]

/-- A payload that does not reach an operation-ending branch leaves the
error, streaming flag and loading flag untouched. -/
theorem applyData_nonterminal (st : AppState) (d : JVal) (h : isTerminalPayload d = false) :
    (applyData st d).error = st.error ∧ (applyData st d).isStreaming = st.isStreaming
      ∧ (applyData st d).loading = st.loading := by
  cases h1 : truthy (dot d "step") with
  | true => rw [applyData_step st d h1]; exact ⟨rfl, rfl, rfl⟩
  | false =>
  cases h2 : truthy (dot d "chunk") with
  | true => rw [applyData_chunk st d h1 h2]; exact ⟨rfl, rfl, rfl⟩
  | false =>
  cases h3 : truthy (dot d "reasoning") with
  | true => rw [applyData_reasoning st d h1 h2 h3]; exact ⟨rfl, rfl, rfl⟩
  | false =>
  cases h4 : truthy (dot d "sql") with
  | true => rw [applyData_sql st d h1 h2 h3 h4]; exact ⟨rfl, rfl, rfl⟩
  | false =>
  cases h5 : truthy (dot d "attempts") with
  | true => rw [applyData_attempts st d h1 h2 h3 h4 h5]; exact ⟨rfl, rfl, rfl⟩
  | false =>
  cases h6 : truthy (dot d "explanation") with
  | true => rw [applyData_explanation st d h1 h2 h3 h4 h5 h6]; exact ⟨rfl, rfl, rfl⟩
  | false =>
  cases h7 : truthy (dot d "natural_language_answer") with
  | true => rw [applyData_answer st d h1 h2 h3 h4 h5 h6 h7]; exact ⟨rfl, rfl, rfl⟩
  | false =>
  cases h8 : isUndef (dot d "row_count") with
  | false =>
    cases h9 : truthy (dot d "auto_fixed") with
    | true => rw [applyData_rowCount_fix st d h1 h2 h3 h4 h5 h6 h7 h8 h9]; exact ⟨rfl, rfl, rfl⟩
    | false => rw [applyData_rowCount_plain st d h1 h2 h3 h4 h5 h6 h7 h8 h9]; exact ⟨rfl, rfl, rfl⟩
  | true =>
    have hterm : (truthy (dot d "error") || truthy (dot d "query_id")
        || (match dot d "message" with
            | JVal.str s => s != "" && strIncludesError s
            | _ => false)) = false := by
      simp only [isTerminalPayload, h1, h2, h3, h4, h5, h6, h7, h8] at h
      simpa using h
    simp only [Bool.or_eq_false_iff] at hterm
    obtain ⟨⟨h9, h10⟩, h11⟩ := hterm
    rw [applyData_msgDrop st d h1 h2 h3 h4 h5 h6 h7 h8 h9 h10 h11]
    exact ⟨rfl, rfl, rfl⟩

/-- Folding only non-terminal updates over the line sequence preserves
the error, streaming flag and loading flag. -/
theorem foldl_appLineStep_nonterminal (ls : List (List Char)) : ∀ (a : AppState),
    (updatesOf ls).all (fun d => !isTerminalPayload d) = true →
    (List.foldl appLineStep a ls).error = a.error
      ∧ (List.foldl appLineStep a ls).isStreaming = a.isStreaming
      ∧ (List.foldl appLineStep a ls).loading = a.loading := by
  induction ls with
  | nil => intro a _; exact ⟨rfl, rfl, rfl⟩
  | cons l ls ih =>
    intro a hall
    cases hf : lineUpdate l with
    | none =>
      simp only [updatesOf, List.filterMap_cons, hf] at hall
      simp only [List.foldl_cons, appLineStep_eq_lineUpdate, hf]
      exact ih a hall
    | some v =>
      simp only [updatesOf, List.filterMap_cons, hf, List.all_cons, Bool.and_eq_true] at hall
      obtain ⟨hv, hrest⟩ := hall
      have hv2 : isTerminalPayload v = false := by simpa using hv
      simp only [List.foldl_cons, appLineStep_eq_lineUpdate, hf]
      have hstep := applyData_nonterminal a v hv2
      have hfold := ih (applyData a v) hrest
      exact ⟨hfold.1.trans hstep.1, hfold.2.1.trans hstep.2.1, hfold.2.2.trans hstep.2.2⟩

/-- Event lines are ignored by `appLineStep`. -/
theorem appLineStep_event (a : AppState) (l : List Char)
    (h : startsWithChars evColon l = true) : appLineStep a l = a := by
  unfold appLineStep
  split_ifs <;> simp_all

/-- Dropping the `event:` lines does not change the state fold. -/
theorem foldl_appLineStep_stripEvents (ls : List (List Char)) : ∀ (a : AppState),
    List.foldl appLineStep a (stripEvents ls) = List.foldl appLineStep a ls := by
  induction ls with
  | nil => intro a; rfl
  | cons l ls ih =>
    intro a
    by_cases h : startsWithChars evColon l = true
    · simp only [stripEvents, List.filter_cons, h]
      simp only [Bool.not_true, List.foldl_cons, appLineStep_event a l h]
      exact ih a
    · have hb : (!startsWithChars evColon l) = true := by simp_all
      simp only [stripEvents, List.filter_cons, hb, List.foldl_cons]
      exact ih _

/-- Event lines contribute no update. -/
theorem lineUpdate_event (l : List Char) (h : startsWithChars evColon l = true) :
    lineUpdate l = none := by
  unfold lineUpdate
  split_ifs <;> simp_all

/-- Dropping the `event:` lines does not change the update sequence. -/
theorem updatesOf_stripEvents (ls : List (List Char)) :
    updatesOf (stripEvents ls) = updatesOf ls := by
  induction ls with
  | nil => rfl
  | cons l ls ih =>
    by_cases h : startsWithChars evColon l = true
    · have hs : stripEvents (l :: ls) = stripEvents ls := by
        simp [stripEvents, List.filter_cons, h]
      rw [hs, ih]
      simp [updatesOf, List.filterMap_cons, lineUpdate_event l h]
    · have hs : stripEvents (l :: ls) = l :: stripEvents ls := by
        simp [stripEvents, List.filter_cons, h]
      rw [hs]
      simp only [updatesOf, List.filterMap_cons]
      have ih2 : List.filterMap lineUpdate (stripEvents ls) = List.filterMap lineUpdate ls := ih
      rw [ih2]

/-- On a valid start and a 2xx response, the ask-operation is the read
loop over the reset state, with `loading` cleared at the end. -/
theorem handleAsk_ok (prev : AppState) (q db : String) (status : Nat)
    (chunks : List (List Nat))
    (hq : (trimChars q.data).isEmpty = false) (hdb : (trimChars db.data).isEmpty = false)
    (hlo : 200 ≤ status) (hhi : status ≤ 299) :
    handleAsk prev q db status chunks
      = { (runChunks (askReset prev) chunks).app with loading := false } := by
  unfold handleAsk
  simp only [hq, hdb, Bool.or_self, Bool.false_eq_true, if_false]
  rw [if_pos ⟨hlo, hhi⟩]

/-! ## The frozen claims. -/

/-- C1, counterexample.  The claim states that for a payload carrying
both an attempts field and an sql field the attempts check wins, so the
scenario ends with metadata.auto_fixed = true and metadata.fix_attempts
= 2.  In the source the sql check (line 110) precedes the attempts
check (line 113), so the scenario ends with sql updated but no metadata
at all: metadata reads as undefined, not true. -/
theorem c1_counterexample :
    dot (handleAsk initialState "top 10 customers" "db1" 200 c1Stream).result "sql"
        = JVal.str "SELECT 1 FIX"
      ∧ dot (dot (handleAsk initialState "top 10 customers" "db1" 200 c1Stream).result
          "metadata") "auto_fixed" = JVal.undefined
      ∧ dot (dot (handleAsk initialState "top 10 customers" "db1" 200 c1Stream).result
          "metadata") "fix_attempts" = JVal.undefined := ⟨rfl, rfl, rfl⟩

/-- C1 as amended: the source checks fields in the order step, chunk,
reasoning, sql, attempts, explanation, natural_language_answer,
row_count, error, query_id, error-indicating message; in particular for
every payload on which the first three checks fail and that carries a
truthy sql field — even one that also carries an attempts field — the
sql branch wins: the record's sql is set from the payload, its metadata
is left untouched, and no auto-fix information is recorded. -/
theorem c1_sql_beats_attempts (st : AppState) (d : JVal)
    (h1 : truthy (dot d "step") = false) (h2 : truthy (dot d "chunk") = false)
    (h3 : truthy (dot d "reasoning") = false) (h4 : truthy (dot d "sql") = true)
    (h5 : truthy (dot d "attempts") = true) :
    dot (applyData st d).result "sql" = dot d "sql"
      ∧ dot (applyData st d).result "metadata" = dot st.result "metadata"
      ∧ (applyData st d).error = st.error
      ∧ (applyData st d).isStreaming = st.isStreaming := by
  have _ := h5
  rw [applyData_sql st d h1 h2 h3 h4]
  refine ⟨?_, ?_, rfl, rfl⟩
  · show lookupField (oset (spreadFields st.result) "sql" (dot d "sql")) "sql" = dot d "sql"
    exact lookupField_oset_self _ _ _
  · show lookupField (oset (spreadFields st.result) "sql" (dot d "sql")) "metadata"
      = dot st.result "metadata"
    rw [lookupField_oset_other _ _ _ _ (by decide : ("metadata" : String) ≠ "sql")]
    exact lookupField_spread _ _

/-- C1, witness for the amended theorem at the scenario payload. -/
theorem c1_witness :
    truthy (dot c1Payload "sql") = true ∧ truthy (dot c1Payload "attempts") = true
      ∧ (dot (applyData askStartState c1Payload).result "sql" = dot c1Payload "sql"
        ∧ dot (applyData askStartState c1Payload).result "metadata"
            = dot askStartState.result "metadata"
        ∧ (applyData askStartState c1Payload).error = askStartState.error
        ∧ (applyData askStartState c1Payload).isStreaming = askStartState.isStreaming) :=
  ⟨rfl, rfl, c1_sql_beats_attempts askStartState c1Payload rfl rfl rfl rfl rfl⟩

/-- C2, counterexample.  The claim states that fields omitted from the
snapshot retain their previously-accumulated values: after accumulating
sql = "SELECT 1" and then applying the snapshot with only query_id,
the record should still have sql = "SELECT 1"; in the source
`setResult(data)` (line 154) replaces the record wholesale, so sql
reads as undefined.  Moreover a snapshot carrying both query_id and a
truthy sql never reaches the query_id branch at all (the sql check at
line 110 wins), so it does not finalize the operation: the stream in
`c2StreamB` ends still streaming. -/
theorem c2_counterexample :
    dot (handleAsk initialState "q" "db1" 200 c2Stream).result "sql" = JVal.undefined
      ∧ dot (handleAsk initialState "q" "db1" 200 c2Stream).result "query_id"
          = JVal.str "q-1"
      ∧ (handleAsk initialState "q" "db1" 200 c2StreamB).isStreaming = true
      ∧ dot (handleAsk initialState "q" "db1" 200 c2StreamB).result "query_id"
          = JVal.undefined := ⟨rfl, rfl, rfl, rfl⟩

/-- C2 as amended: a payload reaches the query_id branch only when
every earlier-checked field (step, chunk, reasoning, sql, attempts,
explanation, natural_language_answer, row_count, error) is absent or
falsy; such an update replaces the record wholesale with the snapshot —
fields the snapshot omits are dropped, not retained — and finalizes the
operation (streaming and loading cleared, step cleared) regardless of
prior partial state, leaving the error field as it was. -/
theorem c2_final_result_replaces (st : AppState) (d : JVal)
    (h1 : truthy (dot d "step") = false) (h2 : truthy (dot d "chunk") = false)
    (h3 : truthy (dot d "reasoning") = false) (h4 : truthy (dot d "sql") = false)
    (h5 : truthy (dot d "attempts") = false) (h6 : truthy (dot d "explanation") = false)
    (h7 : truthy (dot d "natural_language_answer") = false)
    (h8 : isUndef (dot d "row_count") = true) (h9 : truthy (dot d "error") = false)
    (h10 : truthy (dot d "query_id") = true) :
    (applyData st d).result = d ∧ (applyData st d).isStreaming = false
      ∧ (applyData st d).loading = false ∧ (applyData st d).currentStep = JVal.str ""
      ∧ (applyData st d).error = st.error := by
  rw [applyData_queryId st d h1 h2 h3 h4 h5 h6 h7 h8 h9 h10]
  exact ⟨rfl, rfl, rfl, rfl, rfl⟩

/-- C2, witness for the amended theorem: a bare final snapshot applied
over an accumulated partial result. -/
theorem c2_witness :
    truthy (dot c2Payload "query_id") = true
      ∧ ((applyData c2Prior c2Payload).result = c2Payload
        ∧ (applyData c2Prior c2Payload).isStreaming = false
        ∧ (applyData c2Prior c2Payload).loading = false
        ∧ (applyData c2Prior c2Payload).currentStep = JVal.str ""
        ∧ (applyData c2Prior c2Payload).error = c2Prior.error) :=
  ⟨rfl, c2_final_result_replaces c2Prior c2Payload rfl rfl rfl rfl rfl rfl rfl rfl rfl rfl⟩

/-- C3, counterexample.  The claim states that once a terminal error
update has been applied, no update from any later frame of the same
stream is applied.  In the source the read loop has no terminal flag
(lines 78-168): after the error frame sets the error, the following sql
frame is still classified and applied, so the final record carries
sql = "X" — a later update was applied. -/
theorem c3_counterexample :
    (handleAsk initialState "q" "db1" 200 c3Stream).error = JVal.str "syntax error"
      ∧ dot (handleAsk initialState "q" "db1" 200 c3Stream).result "sql"
          = JVal.str "X" := ⟨rfl, rfl⟩

/-- C3 as amended: an error update sets the error and clears the
streaming and loading flags, but processing does not stop: any later
frame of the same stream is still classified and applied exactly as
before — in particular a later sql payload still overwrites the
record's sql (the error itself is preserved). -/
theorem c3_updates_after_failure (st : AppState) (d : JVal)
    (herr : truthy st.error = true)
    (h1 : truthy (dot d "step") = false) (h2 : truthy (dot d "chunk") = false)
    (h3 : truthy (dot d "reasoning") = false) (h4 : truthy (dot d "sql") = true) :
    dot (applyData st d).result "sql" = dot d "sql"
      ∧ (applyData st d).error = st.error
      ∧ truthy (applyData st d).error = true := by
  rw [applyData_sql st d h1 h2 h3 h4]
  refine ⟨?_, rfl, herr⟩
  show lookupField (oset (spreadFields st.result) "sql" (dot d "sql")) "sql" = dot d "sql"
  exact lookupField_oset_self _ _ _

/-- C3, witness for the amended theorem: a sql frame arriving after the
operation already failed is still applied. -/
theorem c3_witness :
    truthy c3Failed.error = true ∧ truthy (dot c3Payload "sql") = true
      ∧ (dot (applyData c3Failed c3Payload).result "sql" = dot c3Payload "sql"
        ∧ (applyData c3Failed c3Payload).error = c3Failed.error
        ∧ truthy (applyData c3Failed c3Payload).error = true) :=
  ⟨rfl, rfl, c3_updates_after_failure c3Failed c3Payload rfl rfl rfl rfl rfl⟩

/-- C4, counterexample.  The claim states that a stream ending cleanly
without a terminal update leaves the operation Failed with a reported
error, never a silently-kept partial result.  In the source nothing
after the read loop checks whether a terminal frame was seen (lines
168-175): the operation ends with no error at all, the partial result
still in place, and the streaming flag still set — the opposite of a
reported failure. -/
theorem c4_counterexample :
    (handleAsk initialState "q" "db1" 200 c4Stream).error = JVal.null
      ∧ (handleAsk initialState "q" "db1" 200 c4Stream).isStreaming = true
      ∧ dot (handleAsk initialState "q" "db1" 200 c4Stream).result "sql"
          = JVal.str "SELECT 1"
      ∧ (handleAsk initialState "q" "db1" 200 c4Stream).loading = false :=
  ⟨rfl, rfl, rfl, rfl⟩

/-- C4 as amended: for every valid start and every 2xx stream whose
decoded updates are all non-terminal (no error, query_id or
error-message payload), a clean transport close leaves the operation
with no error, the streaming flag still true, and only the loading flag
cleared: the truncation is silent and the partial result is kept, not
reported as a failure. -/
theorem c4_clean_end_keeps_streaming (prev : AppState) (q db : String) (status : Nat)
    (chunks : List (List Nat))
    (hq : (trimChars q.data).isEmpty = false) (hdb : (trimChars db.data).isEmpty = false)
    (hlo : 200 ≤ status) (hhi : status ≤ 299)
    (hnt : (updatesOf (linesOfBytes chunks.flatten)).all
      (fun d => !isTerminalPayload d) = true) :
    (handleAsk prev q db status chunks).error = JVal.null
      ∧ (handleAsk prev q db status chunks).isStreaming = true
      ∧ (handleAsk prev q db status chunks).loading = false := by
  rw [handleAsk_ok prev q db status chunks hq hdb hlo hhi]
  have hpres := foldl_appLineStep_nonterminal (linesOfBytes chunks.flatten) (askReset prev) hnt
  refine ⟨?_, ?_, rfl⟩
  · show (runChunks (askReset prev) chunks).app.error = JVal.null
    rw [runChunks_app, hpres.1]
    rfl
  · show (runChunks (askReset prev) chunks).app.isStreaming = true
    rw [runChunks_app, hpres.2.1]
    rfl

/-- C4, witness: a concrete non-terminal stream, closed cleanly. -/
theorem c4_witness :
    (updatesOf (linesOfBytes c4Stream.flatten)).all (fun d => !isTerminalPayload d) = true
      ∧ ((handleAsk initialState "list customers" "db2" 200 c4Stream).error = JVal.null
        ∧ (handleAsk initialState "list customers" "db2" 200 c4Stream).isStreaming = true
        ∧ (handleAsk initialState "list customers" "db2" 200 c4Stream).loading = false) :=
  ⟨rfl, c4_clean_end_keeps_streaming initialState "list customers" "db2" 200 c4Stream
    rfl rfl (by decide) (by decide) rfl⟩

/-- C5.  For every two chunkings of the same byte sequence — including
splits mid-line and inside a multi-byte character, since the text
decoder state is carried per byte — the read loop reaches the same
final state: same processed-line (frame) sequence and same component
record. -/
theorem c5_chunking_invariant (c1 c2 : List (List Nat)) (h : c1.flatten = c2.flatten) :
    runChunks askStartState c1 = runChunks askStartState c2 := by
  unfold runChunks
  rw [foldl_chunkStep_join c1 _ (by simp [loopStart]),
    foldl_chunkStep_join c2 _ (by simp [loopStart]), h]

/-- C5, witness: the two concrete chunkings carry the same bytes and
produce the same loop state. -/
theorem c5_witness :
    c5SplitA.flatten = c5SplitB.flatten
      ∧ runChunks askStartState c5SplitA = runChunks askStartState c5SplitB :=
  ⟨by decide, c5_chunking_invariant c5SplitA c5SplitB (by decide)⟩

/-- C6, counterexample.  The claim states that applying an
ExecutionOutcome update sets execution = (success, rowCount, elapsedMs)
on the result record.  In the source the row_count branch (lines
132-146) only narrates progress: with no auto_fixed field it does not
touch the result at all, so the record stays null and carries no
execution data; only the transient step message changes. -/
theorem c6_counterexample :
    (applyData askStartState c6Payload).result = JVal.null
      ∧ (applyData askStartState c6Payload).currentStep
          = JVal.str "✅ Query executed successfully! 10 rows returned" :=
  ⟨rfl, rfl⟩

/-- C6 as amended: a payload whose row_count field is present (and on
which all earlier checks fail) only sets the transient step message; it
never writes an execution field to the record — execution and
execution_result read the same before and after.  If auto_fixed is
truthy it additionally records metadata.auto_fixed = true and
metadata.fix_attempts from the payload; otherwise the record is
entirely untouched. -/
theorem c6_row_count_only_narrates (st : AppState) (d : JVal)
    (h1 : truthy (dot d "step") = false) (h2 : truthy (dot d "chunk") = false)
    (h3 : truthy (dot d "reasoning") = false) (h4 : truthy (dot d "sql") = false)
    (h5 : truthy (dot d "attempts") = false) (h6 : truthy (dot d "explanation") = false)
    (h7 : truthy (dot d "natural_language_answer") = false)
    (h8 : isUndef (dot d "row_count") = false) :
    (applyData st d).currentStep = JVal.str (execStepMsg d)
      ∧ dot (applyData st d).result "execution" = dot st.result "execution"
      ∧ dot (applyData st d).result "execution_result" = dot st.result "execution_result"
      ∧ (truthy (dot d "auto_fixed") = false → (applyData st d).result = st.result)
      ∧ (truthy (dot d "auto_fixed") = true →
          dot (dot (applyData st d).result "metadata") "auto_fixed" = JVal.bool true
            ∧ dot (dot (applyData st d).result "metadata") "fix_attempts"
                = dot d "fix_attempts") := by
  cases h9 : truthy (dot d "auto_fixed") with
  | false =>
    rw [applyData_rowCount_plain st d h1 h2 h3 h4 h5 h6 h7 h8 h9]
    refine ⟨rfl, rfl, rfl, fun _ => rfl, fun ht => ?_⟩
    exact absurd ht (by simp)
  | true =>
    rw [applyData_rowCount_fix st d h1 h2 h3 h4 h5 h6 h7 h8 h9]
    have hne1 : ("execution" : String) ≠ "metadata" := by decide
    have hne2 : ("execution_result" : String) ≠ "metadata" := by decide
    refine ⟨rfl, ?_, ?_, fun hf => ?_, fun _ => ⟨?_, ?_⟩⟩
    · show lookupField (oset (spreadFields (jor st.result (.obj [])))
        "metadata" (autoFixMeta st.result (dot d "fix_attempts"))) "execution"
          = dot st.result "execution"
      rw [lookupField_oset_other _ _ _ _ hne1]
      exact lookupField_spread_jor _ _
    · show lookupField (oset (spreadFields (jor st.result (.obj [])))
        "metadata" (autoFixMeta st.result (dot d "fix_attempts"))) "execution_result"
          = dot st.result "execution_result"
      rw [lookupField_oset_other _ _ _ _ hne2]
      exact lookupField_spread_jor _ _
    · exact absurd hf (by simp)
    · show dot (lookupField (oset (spreadFields (jor st.result (.obj [])))
          "metadata" (autoFixMeta st.result (dot d "fix_attempts"))) "metadata") "auto_fixed"
          = JVal.bool true
      rw [lookupField_oset_self]
      show lookupField (oset (oset (spreadFields (jor (dot st.result "metadata") (.obj [])))
          "auto_fixed" (.bool true)) "fix_attempts" (dot d "fix_attempts")) "auto_fixed"
          = JVal.bool true
      rw [lookupField_oset_other _ _ _ _
        (by decide : ("auto_fixed" : String) ≠ "fix_attempts")]
      exact lookupField_oset_self _ _ _
    · show dot (lookupField (oset (spreadFields (jor st.result (.obj [])))
          "metadata" (autoFixMeta st.result (dot d "fix_attempts"))) "metadata") "fix_attempts"
          = dot d "fix_attempts"
      rw [lookupField_oset_self]
      exact lookupField_oset_self _ _ _

/-- C6, witness for the amended theorem at a concrete auto-fixed
execution summary. -/
theorem c6_witness :
    isUndef (dot c6FixPayload "row_count") = false
      ∧ ((applyData askStartState c6FixPayload).currentStep
            = JVal.str (execStepMsg c6FixPayload)
        ∧ dot (applyData askStartState c6FixPayload).result "execution"
            = dot askStartState.result "execution"
        ∧ dot (applyData askStartState c6FixPayload).result "execution_result"
            = dot askStartState.result "execution_result"
        ∧ (truthy (dot c6FixPayload "auto_fixed") = false →
            (applyData askStartState c6FixPayload).result = askStartState.result)
        ∧ (truthy (dot c6FixPayload "auto_fixed") = true →
            dot (dot (applyData askStartState c6FixPayload).result "metadata") "auto_fixed"
                = JVal.bool true
              ∧ dot (dot (applyData askStartState c6FixPayload).result "metadata")
                  "fix_attempts" = dot c6FixPayload "fix_attempts")) :=
  ⟨rfl, c6_row_count_only_narrates askStartState c6FixPayload
    rfl rfl rfl rfl rfl rfl rfl rfl⟩

/-- C7.  Reasoning accumulation: applying chunk "A" then chunk "B" to
the fresh streaming state yields the accumulated reasoning "AB"
(append in order), and a subsequent full-reasoning payload "C" yields
"C" — wholesale replacement, not append (lines 105-109). -/
theorem c7_reasoning_accumulation :
    (applyData (applyData askStartState (.obj [("chunk", .str "A")]))
        (.obj [("chunk", .str "B")])).streamingReasoning = JVal.str "AB"
      ∧ (applyData (applyData (applyData askStartState (.obj [("chunk", .str "A")]))
          (.obj [("chunk", .str "B")])) (.obj [("reasoning", .str "C")])).streamingReasoning
        = JVal.str "C" := ⟨rfl, rfl⟩

/-- C8, counterexample.  The claim states that the save issues its
request only when the operation Succeeded, and that in every other
state it is a no-op reported as a precondition failure.  In the source
the guard (line 185) checks only result, result.sql and
result.question — never the operation status — so in the reachable
state left by `c8Stream`, where the error is set (a failed operation),
the request is still issued; and when the guard does fail the function
returns silently, leaving no message at all (kbMessage stays null), so
nothing is reported. -/
theorem c8_counterexample :
    truthy (handleAsk initialState "q" "db1" 200 c8Stream).error = true
      ∧ (saveToKnowledgeBase (handleAsk initialState "q" "db1" 200 c8Stream) "db1" none).1
          = some { database_id := "db1", question := JVal.str "Q", sql := JVal.str "S",
                   description := JVal.null }
      ∧ (saveToKnowledgeBase initialState "db1" none).1 = none
      ∧ (saveToKnowledgeBase initialState "db1" none).2.kbMessage = JVal.null :=
  ⟨rfl, rfl, rfl, rfl⟩

/-- C8 as amended: the save issues its request exactly when the record
is set and its sql and question fields are truthy — the operation
status is never consulted — and when that guard fails the call returns
with no request and a completely unchanged state: the rejection is
silent, not reported. -/
theorem c8_save_guard (st : AppState) (db : String) (netErr : Option String) :
    ((truthy st.result && truthy (dot st.result "sql")
        && truthy (dot st.result "question")) = true →
      (saveToKnowledgeBase st db netErr).1
        = some { database_id := db
                 question := dot st.result "question"
                 sql := dot st.result "sql"
                 description := jor (dot st.result "sql_explanation") JVal.null })
      ∧ ((truthy st.result && truthy (dot st.result "sql")
          && truthy (dot st.result "question")) = false →
        saveToKnowledgeBase st db netErr = (none, st)) := by
  constructor
  · intro h
    unfold saveToKnowledgeBase
    simp only [h, if_true]
    cases netErr <;> rfl
  · intro h
    unfold saveToKnowledgeBase
    simp [h]

/-- C8, witness for the amended theorem: the guard passing at a ready
state and failing at the streaming-start state (whose record is null). -/
theorem c8_witness :
    (truthy c8Ready.result && truthy (dot c8Ready.result "sql")
        && truthy (dot c8Ready.result "question")) = true
      ∧ (truthy askStartState.result && truthy (dot askStartState.result "sql")
          && truthy (dot askStartState.result "question")) = false
      ∧ (saveToKnowledgeBase c8Ready "db1" none).1
          = some { database_id := "db1", question := dot c8Ready.result "question",
                   sql := dot c8Ready.result "sql",
                   description := jor (dot c8Ready.result "sql_explanation") JVal.null }
      ∧ saveToKnowledgeBase askStartState "db1" none = (none, askStartState) :=
  ⟨rfl, rfl, (c8_save_guard c8Ready "db1" none).1 rfl,
    (c8_save_guard askStartState "db1" none).2 rfl⟩

/-- C9, counterexample.  The claim states that exactly one of a
populated result, a streaming indicator, or an error message is shown
at any reachable state.  In the source the error alert (line 282) and
the results panel (line 298) render under independent conditions: after
an error update arrives over a partial result, the error is truthy and
the record is still populated, so both are shown at once. -/
theorem c9_counterexample :
    showsError (handleAsk initialState "q" "db1" 200 c9Stream) = true
      ∧ showsResults (handleAsk initialState "q" "db1" 200 c9Stream) = true
      ∧ truthy (handleAsk initialState "q" "db1" 200 c9Stream).result = true :=
  ⟨rfl, rfl, rfl⟩

/-- C9 as amended: the three indicators are not mutually exclusive —
whenever an error update reaches a state whose record is populated, the
resulting state shows the error alert and the results panel
simultaneously (the error branch leaves the record untouched). -/
theorem c9_error_and_result_both_shown (st : AppState) (d : JVal)
    (hres : truthy st.result = true)
    (h1 : truthy (dot d "step") = false) (h2 : truthy (dot d "chunk") = false)
    (h3 : truthy (dot d "reasoning") = false) (h4 : truthy (dot d "sql") = false)
    (h5 : truthy (dot d "attempts") = false) (h6 : truthy (dot d "explanation") = false)
    (h7 : truthy (dot d "natural_language_answer") = false)
    (h8 : isUndef (dot d "row_count") = true) (h9 : truthy (dot d "error") = true) :
    showsError (applyData st d) = true ∧ showsResults (applyData st d) = true := by
  rw [applyData_error st d h1 h2 h3 h4 h5 h6 h7 h8 h9]
  constructor
  · show truthy (dot d "error") = true
    exact h9
  · show (truthy st.result || false) = true
    rw [hres]
    rfl

/-- C9, witness for the amended theorem. -/
theorem c9_witness :
    truthy c9Partial.result = true ∧ truthy (dot c9Payload "error") = true
      ∧ (showsError (applyData c9Partial c9Payload) = true
        ∧ showsResults (applyData c9Partial c9Payload) = true) :=
  ⟨rfl, rfl, c9_error_and_result_both_shown c9Partial c9Payload
    rfl rfl rfl rfl rfl rfl rfl rfl rfl rfl⟩

/-- C10.  The event name has no effect on the computed state: for every
two line streams that differ only in their event lines (same lines
after removing every line with the `event:` marker), the read loop from
any starting state reaches the same component state — record, status
flags and error included — and applies the identical sequence of
decoded updates.  The handler records `currentEvent` (line 94) but
never reads it. -/
theorem c10_event_name_irrelevant (st : LoopState) (ls1 ls2 : List (List Char))
    (h : stripEvents ls1 = stripEvents ls2) :
    (List.foldl lineStep st ls1).app = (List.foldl lineStep st ls2).app
      ∧ updatesOf ls1 = updatesOf ls2 := by
  constructor
  · rw [foldl_lineStep_eq ls1 st, foldl_lineStep_eq ls2 st]
    dsimp only
    rw [← foldl_appLineStep_stripEvents ls1, ← foldl_appLineStep_stripEvents ls2, h]
  · rw [← updatesOf_stripEvents ls1, ← updatesOf_stripEvents ls2, h]

/-- C10, witness: two concrete streams differing only in event lines. -/
theorem c10_witness :
    stripEvents c10LinesA = stripEvents c10LinesB
      ∧ ((List.foldl lineStep (loopStart askStartState) c10LinesA).app
            = (List.foldl lineStep (loopStart askStartState) c10LinesB).app
        ∧ updatesOf c10LinesA = updatesOf c10LinesB) :=
  ⟨by decide, c10_event_name_irrelevant (loopStart askStartState) c10LinesA c10LinesB
    (by decide)⟩

end GenBI
